import Mathlib

/-!
Verification of the ToDo-List-TS client (src/src/App.tsx and the earlier
revision src/unnamed/part_000).

The client is a single React component. Its business logic is pure once the
clock is made explicit: the zod title schema, the request bodies built by the
create/update/delete mutations, and the transient UI state (dialog open flag,
editing selection, listening flag, form field contents) driven by discrete
user and callback events. We embed that logic shallowly:

- timestamps (new Date().toISOString()) become a Nat clock value passed to
  each event, since ISO-8601 strings compare like the instants they denote;
- each fetch call becomes a Request value collected in the event's output;
- JavaScript string .length becomes String.length;
- the React useState cells become fields of AppState, and every handler
  becomes a case of the step function on events.
-/

/-- The Todo record (interface Todo in App.tsx). -/
structure Todo where
  id : Int
  title : String
  createdAt : Nat
  updatedAt : Nat
  completed : Bool
  progress : Int
deriving DecidableEq, Repr

/-- The argument of createMutation.mutate: Omit of Todo dropping id,
createdAt and updatedAt. -/
structure NewTodoInput where
  title : String
  completed : Bool
  progress : Int
deriving DecidableEq, Repr

/-- The JSON body of the POST /todos request: the NewTodoInput spread plus
both timestamps. -/
structure CreateBody where
  title : String
  completed : Bool
  progress : Int
  createdAt : Nat
  updatedAt : Nat
deriving DecidableEq, Repr

/-- The HTTP requests the client can issue to the remote store. -/
inductive Request where
  | createTodo (body : CreateBody)
  | updateTodo (id : Int) (body : Todo)
  | deleteTodo (id : Int)
deriving DecidableEq, Repr

/-- todoSchema: z.string().min(3, "Title must be at least 3 characters")
.max(20, "Title must be at most 20 characters"). zod checks min before max
and reports the matching message; on success the parsed value is the input
string itself. -/
def todoSchema (title : String) : Except String String :=
  if title.length < 3 then Except.error "Title must be at least 3 characters"
  else if title.length > 20 then Except.error "Title must be at most 20 characters"
  else Except.ok title

/-- Body built by createMutation.mutationFn: the new todo spread with
createdAt and updatedAt set to the current time. -/
def createBody (now : Nat) (newTodo : NewTodoInput) : CreateBody :=
  { title := newTodo.title, completed := newTodo.completed,
    progress := newTodo.progress, createdAt := now, updatedAt := now }

/-- createMutation.mutationFn: POST /todos with the built body. -/
def createMutationFn (now : Nat) (newTodo : NewTodoInput) : Request :=
  Request.createTodo (createBody now newTodo)

/-- Body built by updateMutation.mutationFn: the given todo spread with
updatedAt refreshed to the current time. -/
def updateBody (now : Nat) (updatedTodo : Todo) : Todo :=
  { updatedTodo with updatedAt := now }

/-- updateMutation.mutationFn: PUT /todos/{id} with the refreshed body. -/
def updateMutationFn (now : Nat) (updatedTodo : Todo) : Request :=
  Request.updateTodo updatedTodo.id (updateBody now updatedTodo)

/-- deleteMutation.mutationFn: DELETE /todos/{id}. -/
def deleteMutationFn (id : Int) : Request :=
  Request.deleteTodo id

/-- The argument toggleCompleted passes to updateMutation.mutate: the todo
spread with completed negated. -/
def toggleCompleted (todo : Todo) : Todo :=
  { todo with completed := !todo.completed }

/-- The argument onEditSubmit passes to updateMutation.mutate: the todo
being edited spread with the validated form title. -/
def editSubmitArg (editingTodo : Todo) (title : String) : Todo :=
  { editingTodo with title := title }

/-- The transient UI state: the three useState cells of App plus the title
field of each of the two react-hook-form instances (form and editForm, both
with defaultValues title = ""). -/
structure AppState where
  editingTodo : Option Todo
  isEditDialogOpen : Bool
  isListening : Bool
  formTitle : String
  editFormTitle : String
deriving DecidableEq, Repr

/-- The initial state: useState(null), useState(false), useState(false), and
both form fields at their default value "". -/
def initialState : AppState :=
  { editingTodo := none, isEditDialogOpen := false, isListening := false,
    formTitle := "", editFormTitle := "" }

/-- Lifecycle of one webkitSpeechRecognition use: the user invoking
startVoiceInput (with or without the capability present), and the onstart,
onresult, onerror and onend callbacks the session fires. -/
inductive VoiceEvent where
  | invoke (supported : Bool)
  | onstart
  | onresult (transcript : String)
  | onerror
  | onend
deriving DecidableEq, Repr

/-- What one event emits besides the state change: the fetch requests issued,
the alert notice shown (if any), and whether a recognition session was
started (recognition.start()). -/
structure Output where
  requests : List Request
  notice : Option String
  startsSession : Bool
deriving DecidableEq, Repr

/-- An event that issues no request, shows no notice and starts no session. -/
def noOutput : Output :=
  { requests := [], notice := none, startsSession := false }

/-- startVoiceInput and the recognition callbacks it installs. If the
capability is absent startVoiceInput alerts and returns before constructing
a recognition object; otherwise it calls recognition.start(). onstart sets
isListening true; onresult writes the transcript into the create form title
and resets the flag; onerror and onend reset the flag. -/
def voiceStep (s : AppState) : VoiceEvent → AppState × Output
  | VoiceEvent.invoke supported =>
      if supported then
        (s, { requests := [], notice := none, startsSession := true })
      else
        (s, { requests := [], notice := some "Speech recognition not supported",
              startsSession := false })
  | VoiceEvent.onstart => ({ s with isListening := true }, noOutput)
  | VoiceEvent.onresult transcript =>
      ({ s with formTitle := transcript, isListening := false }, noOutput)
  | VoiceEvent.onerror => ({ s with isListening := false }, noOutput)
  | VoiceEvent.onend => ({ s with isListening := false }, noOutput)

/-- The discrete events the component reacts to. Typing in either form field
is setFormTitle / setEditFormTitle; submitCreate and submitEdit are the two
form submissions, which run the zod resolver before the handler; clickEdit is
the DialogTrigger button of a row (it both opens the dialog and selects the
row, as its onClick does); dismissDialog is the Dialog onOpenChange(false)
path (escape, overlay click or close button); toggle is the row checkbox;
clickDelete is the row delete button; voice wraps the speech events. -/
inductive Event where
  | setFormTitle (t : String)
  | submitCreate
  | setEditFormTitle (t : String)
  | submitEdit
  | clickEdit (todo : Todo)
  | dismissDialog
  | toggle (todo : Todo)
  | clickDelete (id : Int)
  | voice (e : VoiceEvent)
deriving DecidableEq, Repr

/-- One step of the component at clock value now. submitCreate runs
form.handleSubmit(onSubmit): when the resolver accepts, onSubmit mutates
createMutation with title, completed false, progress 0, then form.reset();
when it rejects, the handler is not called and nothing is sent. submitEdit
runs editForm.handleSubmit(onEditSubmit): when the resolver accepts and
editingTodo is non-null, onEditSubmit mutates updateMutation with the edited
todo spread with the new title, clears editingTodo, closes the dialog and
resets editForm; with editingTodo null it does nothing. clickEdit sets
editingTodo to the row todo, copies its title into editForm and opens the
dialog. toggle mutates updateMutation with the completed flag negated.
clickDelete mutates deleteMutation with the row id. -/
def step (now : Nat) (s : AppState) : Event → AppState × Output
  | Event.setFormTitle t => ({ s with formTitle := t }, noOutput)
  | Event.submitCreate =>
      match todoSchema s.formTitle with
      | Except.ok title =>
          ({ s with formTitle := "" },
           { requests := [createMutationFn now
               { title := title, completed := false, progress := 0 }],
             notice := none, startsSession := false })
      | Except.error _ => (s, noOutput)
  | Event.setEditFormTitle t => ({ s with editFormTitle := t }, noOutput)
  | Event.submitEdit =>
      match todoSchema s.editFormTitle with
      | Except.ok title =>
          match s.editingTodo with
          | some editingTodo =>
              ({ s with editingTodo := none, isEditDialogOpen := false,
                        editFormTitle := "" },
               { requests := [updateMutationFn now (editSubmitArg editingTodo title)],
                 notice := none, startsSession := false })
          | none => (s, noOutput)
      | Except.error _ => (s, noOutput)
  | Event.clickEdit todo =>
      ({ s with editingTodo := some todo, editFormTitle := todo.title,
                isEditDialogOpen := true }, noOutput)
  | Event.dismissDialog => ({ s with isEditDialogOpen := false }, noOutput)
  | Event.toggle todo =>
      (s, { requests := [updateMutationFn now (toggleCompleted todo)],
            notice := none, startsSession := false })
  | Event.clickDelete id =>
      (s, { requests := [deleteMutationFn id], notice := none,
            startsSession := false })
  | Event.voice e => voiceStep s e

/-- Run a sequence of timed events from a state, keeping only the state. -/
def runState (s : AppState) : List (Nat × Event) → AppState
  | [] => s
  | p :: rest => runState (step p.1 s p.2).1 rest

/-- Run a sequence of voice events from a state, keeping only the state. -/
def runVoice (s : AppState) : List VoiceEvent → AppState
  | [] => s
  | e :: rest => runVoice (voiceStep s e).1 rest

/-- The row of the list view renders one Dialog element per todo, each with
open bound to the shared isEditDialogOpen flag (the todos.map in the render
body); this counts how many of those rendered Dialog instances are open. -/
def renderedOpenDialogCount (todos : List Todo) (s : AppState) : Nat :=
  (todos.map (fun _ => s.isEditDialogOpen)).count true

/-- The todo of the most recent clickEdit event seen so far, folding from a
previous selection: every DialogTrigger click overwrites the selection, no
other event touches it. -/
def pickSelected (acc : Option Todo) (p : Nat × Event) : Option Todo :=
  match p.2 with
  | Event.clickEdit todo => some todo
  | _ => acc

/-- The todo of the most recent clickEdit event of a whole trace, none when
no row's edit button was ever clicked. -/
def lastSelected (tr : List (Nat × Event)) : Option Todo :=
  tr.foldl pickSelected none

/-- Following the spec's words for the voice capability: a recognition
session is active after the session-started event and stops being so at the
first result, error or session-end event; invoking the button itself does
not change that. This is the spec side of claim C8, to compare with the
isListening flag maintained by the code's callbacks. -/
def sessionActiveStep (active : Bool) : VoiceEvent → Bool
  | VoiceEvent.onstart => true
  | VoiceEvent.onresult _ => false
  | VoiceEvent.onerror => false
  | VoiceEvent.onend => false
  | VoiceEvent.invoke _ => active

/-- Whether a recognition session is active after a trace of voice events,
per the spec's lifecycle description (no session is active initially). -/
def specSessionActive (trace : List VoiceEvent) : Bool :=
  trace.foldl sessionActiveStep false

/-- A concrete todo record used to evaluate the theorems. -/
def todoA : Todo :=
  { id := 1, title := "Buy milk", createdAt := 100, updatedAt := 100,
    completed := false, progress := 0 }

/-- A second concrete todo record with a different id. -/
def todoB : Todo :=
  { id := 2, title := "Write report", createdAt := 101, updatedAt := 101,
    completed := true, progress := 40 }

/-- todoSchema accepts any title whose length lies in the closed interval
[3, 20] and returns the title unchanged. -/
theorem todoSchema_ok (t : String) (h3 : 3 ≤ t.length) (h20 : t.length ≤ 20) :
    todoSchema t = Except.ok t := by
  unfold todoSchema
  rw [if_neg (by omega), if_neg (by omega)]

/-- todoSchema rejects any title whose length falls outside [3, 20]. -/
theorem todoSchema_err (t : String) (h : t.length < 3 ∨ 20 < t.length) :
    todoSchema t = Except.error (if t.length < 3
      then "Title must be at least 3 characters"
      else "Title must be at most 20 characters") := by
  unfold todoSchema
  rcases h with h | h
  · rw [if_pos h, if_pos h]
  · rw [if_neg (by omega), if_pos (by omega), if_neg (by omega)]

/-- Claim C1: todoSchema accepts a title exactly when its length lies in
[3, 20]; a shorter title is rejected with the at-least-3 message and a
longer one with the at-most-20 message. -/
theorem todoSchema_accepts_iff (t : String) :
    (todoSchema t = Except.ok t ↔ 3 ≤ t.length ∧ t.length ≤ 20)
    ∧ (t.length < 3 →
        todoSchema t = Except.error "Title must be at least 3 characters")
    ∧ (20 < t.length →
        todoSchema t = Except.error "Title must be at most 20 characters") := by
  refine ⟨?_, ?_, ?_⟩
  · constructor
    · intro h
      by_contra hc
      push_neg at hc
      unfold todoSchema at h
      split at h
      · exact Except.noConfusion h
      · split at h
        · exact Except.noConfusion h
        · omega
    · intro ⟨h3, h20⟩
      unfold todoSchema
      rw [if_neg (by omega), if_neg (by omega)]
  · intro h
    unfold todoSchema
    rw [if_pos h]
  · intro h
    unfold todoSchema
    rw [if_neg (by omega), if_pos (by omega)]

/-- Witness for C1: the validator on a 2-character, a 21-character and a
3-character concrete title. -/
theorem todoSchema_accepts_iff_witness :
    todoSchema "ab" = Except.error "Title must be at least 3 characters"
    ∧ todoSchema "abcdefghijklmnopqrstu"
        = Except.error "Title must be at most 20 characters"
    ∧ todoSchema "abc" = Except.ok "abc" :=
  ⟨(todoSchema_accepts_iff "ab").2.1 (by decide),
   (todoSchema_accepts_iff "abcdefghijklmnopqrstu").2.2 (by decide),
   (todoSchema_accepts_iff "abc").1.mpr (by decide)⟩

/-- Claim C2: when the create form title (and likewise the edit form title)
is shorter than 3 or longer than 20 characters, submission is rejected by
the resolver: the handler never runs, the state is unchanged, and no request
of any kind is issued. -/
theorem invalid_title_no_request (now : Nat) (s : AppState)
    (hc : s.formTitle.length < 3 ∨ 20 < s.formTitle.length)
    (he : s.editFormTitle.length < 3 ∨ 20 < s.editFormTitle.length) :
    step now s Event.submitCreate = (s, noOutput)
    ∧ step now s Event.submitEdit = (s, noOutput) := by
  constructor
  · simp only [step]
    rw [todoSchema_err s.formTitle hc]
  · simp only [step]
    rw [todoSchema_err s.editFormTitle he]

/-- Witness for C2: both forms at the empty title (length 0) submit to no
request and no state change. -/
theorem invalid_title_no_request_witness :
    step 5 initialState Event.submitCreate = (initialState, noOutput)
    ∧ step 5 initialState Event.submitEdit = (initialState, noOutput) :=
  invalid_title_no_request 5 initialState (by decide) (by decide)

/-- Claim C3: when the create form title has length in [3, 20], submission
issues exactly one create request, whose body carries that title, completed
false, progress 0, and createdAt and updatedAt both equal to the current
time. -/
theorem valid_title_creates (now : Nat) (s : AppState)
    (h3 : 3 ≤ s.formTitle.length) (h20 : s.formTitle.length ≤ 20) :
    (step now s Event.submitCreate).2.requests
      = [Request.createTodo
          { title := s.formTitle, completed := false, progress := 0,
            createdAt := now, updatedAt := now }] := by
  simp only [step]
  rw [todoSchema_ok s.formTitle h3 h20]
  rfl

/-- Witness for C3: submitting the create form holding the 8-character title
at clock 7 issues the one POST with both timestamps 7. -/
theorem valid_title_creates_witness :
    (step 7 { initialState with formTitle := "Buy milk" }
        Event.submitCreate).2.requests
      = [Request.createTodo
          { title := "Buy milk", completed := false, progress := 0,
            createdAt := 7, updatedAt := 7 }] :=
  valid_title_creates 7 { initialState with formTitle := "Buy milk" }
    (by decide) (by decide)

/-- Claim C4: toggling a todo sends one update request addressed to the
record's id whose body preserves id, title, createdAt and progress, negates
completed, and carries an updatedAt strictly later than the record's
previous updatedAt (given that the clock has advanced past it). -/
theorem toggle_preserves_and_flips (now : Nat) (s : AppState) (todo : Todo)
    (h : todo.updatedAt < now) :
    (step now s (Event.toggle todo)).2.requests
      = [Request.updateTodo todo.id (updateBody now (toggleCompleted todo))]
    ∧ (updateBody now (toggleCompleted todo)).id = todo.id
    ∧ (updateBody now (toggleCompleted todo)).title = todo.title
    ∧ (updateBody now (toggleCompleted todo)).createdAt = todo.createdAt
    ∧ (updateBody now (toggleCompleted todo)).progress = todo.progress
    ∧ (updateBody now (toggleCompleted todo)).completed = !todo.completed
    ∧ todo.updatedAt < (updateBody now (toggleCompleted todo)).updatedAt :=
  ⟨rfl, rfl, rfl, rfl, rfl, rfl, h⟩

/-- Witness for C4: toggling the concrete record last updated at 100 when
the clock reads 101. -/
theorem toggle_preserves_and_flips_witness :
    (step 101 initialState (Event.toggle todoA)).2.requests
      = [Request.updateTodo todoA.id (updateBody 101 (toggleCompleted todoA))]
    ∧ todoA.updatedAt < (updateBody 101 (toggleCompleted todoA)).updatedAt :=
  ⟨(toggle_preserves_and_flips 101 initialState todoA (by decide)).1,
   (toggle_preserves_and_flips 101 initialState todoA (by decide)).2.2.2.2.2.2⟩

/-- Claim C5: submitting the edit dialog for an edited record with a valid
new title sends one update request addressed to the record's id whose body
keeps id, completed, progress and createdAt, replaces title with the new
title, and refreshes updatedAt to the current time. -/
theorem edit_submit_spec (now : Nat) (s : AppState) (t : Todo)
    (he : s.editingTodo = some t)
    (h3 : 3 ≤ s.editFormTitle.length) (h20 : s.editFormTitle.length ≤ 20) :
    (step now s Event.submitEdit).2.requests
      = [Request.updateTodo t.id (updateBody now (editSubmitArg t s.editFormTitle))]
    ∧ (updateBody now (editSubmitArg t s.editFormTitle)).id = t.id
    ∧ (updateBody now (editSubmitArg t s.editFormTitle)).completed = t.completed
    ∧ (updateBody now (editSubmitArg t s.editFormTitle)).progress = t.progress
    ∧ (updateBody now (editSubmitArg t s.editFormTitle)).createdAt = t.createdAt
    ∧ (updateBody now (editSubmitArg t s.editFormTitle)).title = s.editFormTitle
    ∧ (updateBody now (editSubmitArg t s.editFormTitle)).updatedAt = now := by
  refine ⟨?_, rfl, rfl, rfl, rfl, rfl, rfl⟩
  simp only [step]
  rw [todoSchema_ok s.editFormTitle h3 h20, he]
  rfl

/-- Witness for C5: editing the concrete record to the title "Buy oat milk"
at clock 9. -/
theorem edit_submit_spec_witness :
    (step 9
        { initialState with
            editingTodo := some todoA, editFormTitle := "Buy oat milk" }
        Event.submitEdit).2.requests
      = [Request.updateTodo todoA.id (updateBody 9 (editSubmitArg todoA "Buy oat milk"))] :=
  (edit_submit_spec 9
    { initialState with
        editingTodo := some todoA, editFormTitle := "Buy oat milk" }
    todoA rfl (by decide) (by decide)).1

/-- Claim C6: every update body the client builds after creation (the plain
update, the toggle specialization and the edit-dialog update) carries the
record's original createdAt unchanged and an updatedAt refreshed to the
current time. -/
theorem createdAt_never_changes (now : Nat) (t : Todo) (title : String) :
    (updateBody now t).createdAt = t.createdAt
    ∧ (updateBody now t).updatedAt = now
    ∧ (updateBody now (toggleCompleted t)).createdAt = t.createdAt
    ∧ (updateBody now (toggleCompleted t)).updatedAt = now
    ∧ (updateBody now (editSubmitArg t title)).createdAt = t.createdAt
    ∧ (updateBody now (editSubmitArg t title)).updatedAt = now :=
  ⟨rfl, rfl, rfl, rfl, rfl, rfl⟩

/-- Claim C9: applying the toggle-completed write transformation twice
returns the record to its original value in every field except updatedAt,
which carries the second clock value; in particular completed is restored. -/
theorem toggle_involutive (now1 now2 : Nat) (t : Todo) :
    updateBody now2 (toggleCompleted (updateBody now1 (toggleCompleted t)))
      = { t with updatedAt := now2 } := by
  simp [updateBody, toggleCompleted]

/-- Claim C10: submitting the edit form while no todo is being edited is a
no-op: no request is issued and the dialog flag, the editing selection and
both form fields are unchanged. -/
theorem edit_submit_no_editing (now : Nat) (s : AppState)
    (h : s.editingTodo = none) :
    step now s Event.submitEdit = (s, noOutput) := by
  simp only [step]
  cases htv : todoSchema s.editFormTitle with
  | error e => rfl
  | ok v => rw [h]

/-- Witness for C10: submitting the edit form in the initial state, where
nothing is being edited. -/
theorem edit_submit_no_editing_witness :
    step 3 initialState Event.submitEdit = (initialState, noOutput) :=
  edit_submit_no_editing 3 initialState rfl

/-- The isListening flag after running the recognition callbacks over any
trace of voice events equals the fold of the session-lifecycle step from the
starting value of the flag. -/
theorem runVoice_isListening (trace : List VoiceEvent) :
    ∀ (s : AppState) (a : Bool), s.isListening = a →
      (runVoice s trace).isListening = trace.foldl sessionActiveStep a := by
  induction trace with
  | nil =>
      intro s a h
      exact h
  | cons e rest ih =>
      intro s a h
      cases e with
      | invoke b =>
          cases b with
          | false => exact ih _ _ h
          | true => exact ih _ _ h
      | onstart => exact ih _ _ rfl
      | onresult t => exact ih _ _ rfl
      | onerror => exact ih _ _ rfl
      | onend => exact ih _ _ rfl

/-- Claim C8: invoking voice input without the capability alerts with the
notice, starts no recognition session and leaves the state (in particular
the isListening flag) untouched; each callback sets the flag as the session
lifecycle dictates (true on start, false on result, error or end); and over
any trace of voice events starting with the flag down, the flag equals the
spec's session-active predicate. -/
theorem voice_input_spec :
    (∀ (s : AppState),
        voiceStep s (VoiceEvent.invoke false)
          = (s, { requests := [],
                  notice := some "Speech recognition not supported",
                  startsSession := false }))
    ∧ (∀ (s : AppState), (voiceStep s VoiceEvent.onstart).1.isListening = true)
    ∧ (∀ (s : AppState) (t : String),
        (voiceStep s (VoiceEvent.onresult t)).1.isListening = false)
    ∧ (∀ (s : AppState), (voiceStep s VoiceEvent.onerror).1.isListening = false)
    ∧ (∀ (s : AppState), (voiceStep s VoiceEvent.onend).1.isListening = false)
    ∧ (∀ (s : AppState) (trace : List VoiceEvent), s.isListening = false →
        (runVoice s trace).isListening = specSessionActive trace) := by
  refine ⟨fun s => rfl, fun s => rfl, fun s t => rfl, fun s => rfl,
    fun s => rfl, ?_⟩
  intro s trace h
  exact runVoice_isListening trace s false h

/-- Witness for C8: a full successful session from the initial state leaves
the flag agreeing with the session-active predicate, and an unsupported
invocation produces exactly the alert output. -/
theorem voice_input_spec_witness :
    (runVoice initialState
        [VoiceEvent.invoke true, VoiceEvent.onstart,
         VoiceEvent.onresult "Buy milk", VoiceEvent.onend]).isListening
      = specSessionActive
          [VoiceEvent.invoke true, VoiceEvent.onstart,
           VoiceEvent.onresult "Buy milk", VoiceEvent.onend]
    ∧ voiceStep initialState (VoiceEvent.invoke false)
        = (initialState,
           { requests := [], notice := some "Speech recognition not supported",
             startsSession := false }) :=
  ⟨voice_input_spec.2.2.2.2.2 initialState
      [VoiceEvent.invoke true, VoiceEvent.onstart,
       VoiceEvent.onresult "Buy milk", VoiceEvent.onend] rfl,
   voice_input_spec.1 initialState⟩

/-- One step preserves the dialog invariant: whenever the dialog flag is up,
the editing selection is the most recently clicked row's todo (and some row
was clicked). -/
theorem step_dialog_inv (now : Nat) (s : AppState) (e : Event)
    (prev : Option Todo)
    (h : s.isEditDialogOpen = true → s.editingTodo = prev ∧ prev.isSome = true) :
    (step now s e).1.isEditDialogOpen = true →
      (step now s e).1.editingTodo = pickSelected prev (now, e)
      ∧ (pickSelected prev (now, e)).isSome = true := by
  cases e with
  | setFormTitle t => exact h
  | submitCreate =>
      simp only [step]
      cases todoSchema s.formTitle with
      | ok v => exact h
      | error msg => exact h
  | setEditFormTitle t => exact h
  | submitEdit =>
      simp only [step]
      cases todoSchema s.editFormTitle with
      | ok v =>
          cases s.editingTodo with
          | some t0 => intro hopen; exact absurd hopen Bool.false_ne_true
          | none => exact h
      | error msg => exact h
  | clickEdit todo => intro hopen; exact ⟨rfl, rfl⟩
  | dismissDialog => intro hopen; exact absurd hopen Bool.false_ne_true
  | toggle todo => exact h
  | clickDelete id => exact h
  | voice ve =>
      cases ve with
      | invoke b =>
          cases b with
          | false => exact h
          | true => exact h
      | onstart => exact h
      | onresult t => exact h
      | onerror => exact h
      | onend => exact h

/-- Over any trace, whenever the dialog flag is up, the editing selection is
the most recently clicked row's todo. -/
theorem runState_dialog_inv (tr : List (Nat × Event)) :
    ∀ (s : AppState) (prev : Option Todo),
      (s.isEditDialogOpen = true → s.editingTodo = prev ∧ prev.isSome = true) →
      ((runState s tr).isEditDialogOpen = true →
        (runState s tr).editingTodo = tr.foldl pickSelected prev
        ∧ (tr.foldl pickSelected prev).isSome = true) := by
  induction tr with
  | nil =>
      intro s prev h
      exact h
  | cons p rest ih =>
      intro s prev h
      exact ih (step p.1 s p.2).1 (pickSelected prev p)
        (step_dialog_inv p.1 s p.2 prev h)

/-- Counting true values in a constant-true list of booleans built from any
list gives that list's length. -/
theorem count_true_map (l : List Todo) :
    (l.map (fun _ => true)).count true = l.length := by
  induction l with
  | nil => rfl
  | cons x xs ih => simp [List.count_cons, ih]

/-- Counterexample for C7: the claim that at most one edit dialog is open in
every reachable state fails. From the initial state with two todos listed,
clicking edit on the first row reaches a state in which both rows' rendered
Dialog instances are open, because the render body creates one Dialog per
row, all bound to the one shared isEditDialogOpen flag. -/
theorem dialog_multi_open :
    renderedOpenDialogCount [todoA, todoB]
        (runState initialState [(0, Event.clickEdit todoA)]) = 2
    ∧ ¬ renderedOpenDialogCount [todoA, todoB]
          (runState initialState [(0, Event.clickEdit todoA)]) ≤ 1 := by
  constructor
  · rfl
  · decide

/-- Claim C7 (amended): the UI keeps a single shared dialog-open flag and a
single editing selection. Clicking edit on a row opens the dialog for that
row's todo and captures its title into the edit form; whenever the flag is
up the selection is the most recently clicked row's todo; the flag goes down
on successful submission and on dismissal. But the render body creates one
Dialog instance per listed row, all bound to the shared flag, so when the
flag is up every listed row's instance is open, not at most one. -/
theorem dialog_state_machine :
    (∀ (now : Nat) (s : AppState) (t : Todo),
        (step now s (Event.clickEdit t)).1
          = { s with editingTodo := some t, editFormTitle := t.title,
                     isEditDialogOpen := true })
    ∧ (∀ (tr : List (Nat × Event)),
        (runState initialState tr).isEditDialogOpen = true →
          (runState initialState tr).editingTodo = lastSelected tr
          ∧ (lastSelected tr).isSome = true)
    ∧ (∀ (now : Nat) (s : AppState),
        (step now s Event.dismissDialog).1.isEditDialogOpen = false)
    ∧ (∀ (now : Nat) (s : AppState) (t : Todo),
        s.editingTodo = some t → 3 ≤ s.editFormTitle.length →
        s.editFormTitle.length ≤ 20 →
          (step now s Event.submitEdit).1.isEditDialogOpen = false)
    ∧ (∀ (todos : List Todo) (s : AppState), s.isEditDialogOpen = true →
        renderedOpenDialogCount todos s = todos.length) := by
  refine ⟨fun now s t => rfl, ?_, fun now s => rfl, ?_, ?_⟩
  · intro tr
    exact runState_dialog_inv tr initialState none
      (fun h => absurd h (by decide))
  · intro now s t he h3 h20
    simp only [step]
    rw [todoSchema_ok s.editFormTitle h3 h20, he]
  · intro todos s h
    simp only [renderedOpenDialogCount, h]
    exact count_true_map todos

/-- Witness for C7 (amended): the invariant, the close-on-submit transition
and the all-instances-open count evaluated at concrete inputs. -/
theorem dialog_state_machine_witness :
    (runState initialState [(0, Event.clickEdit todoA)]).editingTodo
        = lastSelected [(0, Event.clickEdit todoA)]
    ∧ (step 4
        { initialState with
            editingTodo := some todoA, editFormTitle := "Buy oat milk" }
        Event.submitEdit).1.isEditDialogOpen = false
    ∧ renderedOpenDialogCount [todoA, todoB]
        { initialState with isEditDialogOpen := true } = 2 :=
  ⟨(dialog_state_machine.2.1 [(0, Event.clickEdit todoA)] rfl).1,
   dialog_state_machine.2.2.2.1 4
     { initialState with
         editingTodo := some todoA, editFormTitle := "Buy oat milk" }
     todoA rfl (by decide) (by decide),
   by
     rw [dialog_state_machine.2.2.2.2 [todoA, todoB]
       { initialState with isEditDialogOpen := true } rfl]
     rfl⟩
